import Mathlib

/-!
A verification development for the streaming reverse proxy
`local-mcp-proxy.cjs`: a shallow embedding of its request handling
(target resolution, outbound-request construction, response-head
computation, body relaying and the error handlers), together with
theorems settling the specification claims about it.

Machine conventions mirrored from the Node.js runtime:
inbound header names arrive lowercased (Node lowercases them), response
bytes are modelled as `List Nat` chunks, and event-driven handlers are
modelled as functions from the stream events they are registered on to
the write actions they perform.
-/

namespace McpProxy

/-- `pat` starts `s` (character lists). -/
def leadsWith : List Char → List Char → Bool
  | [], _ => true
  | _ :: _, [] => false
  | c :: cs, d :: ds => c == d && leadsWith cs ds

/-- `pat` occurs somewhere inside `s` (character lists). -/
def listIncludes (pat : List Char) : List Char → Bool
  | [] => pat.isEmpty
  | s@(_ :: rest) => leadsWith pat s || listIncludes pat rest

/-- JS `String.prototype.includes`: `pat` occurs as a substring of `s`. -/
def strIncludes (s pat : String) : Bool :=
  listIncludes pat.data s.data

/-- Node header-map lookup (`req.headers[name]` / `ur.headers[name]`):
first entry with the given (lowercased) name, if any. -/
def getHeader (hs : List (String × String)) (name : String) : Option String :=
  (hs.find? (fun p => p.1 = name)).map Prod.snd

/-- Hex digit value, as used by percent-decoding. -/
def hexVal (c : Char) : Option Nat :=
  if '0' ≤ c ∧ c ≤ '9' then some (c.toNat - '0'.toNat)
  else if 'a' ≤ c ∧ c ≤ 'f' then some (c.toNat - 'a'.toNat + 10)
  else if 'A' ≤ c ∧ c ≤ 'F' then some (c.toNat - 'A'.toNat + 10)
  else none

/-- Core of `application/x-www-form-urlencoded` decoding used by
`URLSearchParams`: `%XY` becomes the byte `0xXY`, a stray `%` is kept
verbatim, and `+` becomes a space.  (Multi-byte UTF-8 sequences are
decoded byte-per-byte; the targets relevant here are ASCII.) -/
def percentDecodeAux : List Char → List Char
  | [] => []
  | '%' :: a :: b :: rest =>
    match hexVal a, hexVal b with
    | some x, some y => Char.ofNat (16 * x + y) :: percentDecodeAux rest
    | _, _ => '%' :: percentDecodeAux (a :: b :: rest)
  | '+' :: rest => ' ' :: percentDecodeAux rest
  | c :: rest => c :: percentDecodeAux rest

def percentDecode (s : String) : String :=
  String.mk (percentDecodeAux s.data)

/-- The query string of a request target: everything after the first
`?` (empty when there is none).  `new URL(req.url, base).searchParams`
reads exactly this part of an origin-form request target; the base host
only supplies the authority and never affects the query. -/
def queryOf (path : String) : String :=
  match path.data.dropWhile (fun c => c ≠ '?') with
  | [] => ""
  | _ :: rest => String.mk rest

/-- Split a character list on every occurrence of `sep` (the single-
character case of JS `String.prototype.split`). -/
def splitChar (sep : Char) : List Char → List (List Char)
  | [] => [[]]
  | c :: rest =>
    let r := splitChar sep rest
    if c = sep then [] :: r
    else
      match r with
      | [] => [[c]]
      | h :: t => (c :: h) :: t

/-- `URLSearchParams.get name`: split the query on `&`, each pair on
its first `=` (value empty when there is no `=`), percent-decode both
sides, return the first value bound to `name`. -/
def getQueryParam (q : String) (name : String) : Option String :=
  let pairs : List (String × String) :=
    (splitChar '&' q.data).filterMap fun kv =>
      if kv.isEmpty then none
      else
        let k := kv.takeWhile (fun c => c ≠ '=')
        let v := (kv.drop k.length).drop 1
        some (percentDecode (String.mk k), percentDecode (String.mk v))
  (pairs.find? (fun p => p.1 = name)).map Prod.snd

/-- Result of `new URL(target)`, with the fields the proxy reads:
`protocol` keeps the trailing colon, `port` is the explicit port digits
(empty for default or omitted port), `search` keeps the leading `?`
(empty when there is no query). -/
structure URLRec where
  protocol : String
  hostname : String
  port : String
  pathname : String
  search : String
deriving DecidableEq, Repr

/-- Scheme scanner of the URL parser: consume `[A-Za-z][A-Za-z0-9+.-]*`
up to a `:`; anything else (in particular a target with no scheme at
all) fails, which in the source surfaces as the `TypeError` thrown by
`new URL`. -/
def schemeSplitAux (acc : List Char) : List Char → Option (List Char × List Char)
  | [] => none
  | c :: rest =>
    if c = ':' then
      if acc.isEmpty then none else some (acc.reverse, rest)
    else
      if (if acc.isEmpty then c.isAlpha
          else (c.isAlpha || c.isDigit || c == '+' || c == '-' || c == '.')) then
        schemeSplitAux (c :: acc) rest
      else none

/-- Models the WHATWG URL constructor (Node `new URL`) on the
fragment-free absolute URLs relevant to the proxy: a valid scheme
followed by `://host[:port][/path][?query]` (host required, port must
be digits and is normalised away when it equals the scheme default), or
a non-authority form `scheme:rest`.  A string with no scheme or a
malformed authority yields `none`, the counterpart of the thrown
`TypeError`. -/
def parseURL (s : String) : Option URLRec :=
  match schemeSplitAux [] s.data with
  | none => none
  | some (schemeCs, rest) =>
    let scheme := String.mk (schemeCs.map Char.toLower)
    let protocol := scheme ++ ":"
    match rest with
    | '/' :: '/' :: rest2 =>
      let authority := rest2.takeWhile (fun c => c ≠ '/' && c ≠ '?' && c ≠ '#')
      let after := rest2.drop authority.length
      let hostCs := authority.takeWhile (fun c => c ≠ ':')
      let portCs := authority.drop (hostCs.length + 1)
      if hostCs.isEmpty then none
      else if !(portCs.all Char.isDigit) then none
      else
        let portStr := String.mk portCs
        let port :=
          if (scheme = "http" ∧ portStr = "80") ∨ (scheme = "https" ∧ portStr = "443")
          then "" else portStr
        let pathCs := after.takeWhile (fun c => c ≠ '?' && c ≠ '#')
        let afterPath := after.drop pathCs.length
        let search :=
          match afterPath with
          | '?' :: qs => String.mk ('?' :: qs.takeWhile (fun c => c ≠ '#'))
          | _ => ""
        some { protocol := protocol
               hostname := String.mk (hostCs.map Char.toLower)
               port := port
               pathname := if pathCs.isEmpty then "/" else String.mk pathCs
               search := search }
    | _ =>
      let pathCs := rest.takeWhile (fun c => c ≠ '?' && c ≠ '#')
      let afterPath := rest.drop pathCs.length
      let search :=
        match afterPath with
        | '?' :: qs => String.mk ('?' :: qs.takeWhile (fun c => c ≠ '#'))
        | _ => ""
      some { protocol := protocol
             hostname := ""
             port := ""
             pathname := String.mk pathCs
             search := search }

/-- One inbound HTTP request as the proxy sees it: `path` is `req.url`
(origin-form request target), `headers` is Node's header map with
lowercased names. -/
structure InboundRequest where
  method : String
  path : String
  headers : List (String × String)
deriving DecidableEq, Repr

/-- `cors(res)` (source lines 8-12): the three fixed cross-origin
headers set on every response. -/
def corsHeaders : List (String × String) :=
  [("Access-Control-Allow-Origin", "*"),
   ("Access-Control-Allow-Methods", "GET,POST,OPTIONS,HEAD"),
   ("Access-Control-Allow-Headers", "Content-Type, Authorization, Accept, Cache-Control")]

/-- The outbound request `options` object (source lines 32-45). -/
structure RequestOptions where
  method : String
  protocol : String
  hostname : String
  port : Nat
  path : String
  headers : List (String × String)
deriving DecidableEq, Repr

/-- Source lines 32-45: the `options` passed to `client.request`.
`port` is `t.port || (443 or 80 by scheme)`; the outbound headers are
the literal five-entry object, reading only the inbound `accept` and
`content-type` values. -/
def buildOptions (req : InboundRequest) (t : URLRec) : RequestOptions :=
  { method := req.method
    protocol := t.protocol
    hostname := t.hostname
    port := if t.port = "" then (if t.protocol = "https:" then 443 else 80)
            else (t.port.toNat?.getD 0)
    path := t.pathname ++ t.search
    headers :=
      [("Accept", (getHeader req.headers "accept").getD "text/event-stream"),
       ("Content-Type", (getHeader req.headers "content-type").getD "application/json"),
       ("Cache-Control", "no-cache"),
       ("Connection", "keep-alive"),
       ("User-Agent", "mcp-inspector-local-proxy")] }

/-- Minimal model of `JSON.stringify` string escaping (quote and
backslash; the error messages relevant here contain no control
characters). -/
def jsonEscape (s : String) : String :=
  String.mk (s.data.foldr (fun c acc =>
    if c = '"' then '\\' :: '"' :: acc
    else if c = '\\' then '\\' :: '\\' :: acc
    else c :: acc) [])

/-- `JSON.stringify(\x7b error: 'missing url param' \x7d)`. -/
def missingUrlBody : String := "\x7b\"error\":\"missing url param\"\x7d"

/-- `JSON.stringify(\x7b error: 'bad gateway', message: e.message \x7d)`. -/
def badGatewayBody (msg : String) : String :=
  "\x7b\"error\":\"bad gateway\",\"message\":\"" ++ jsonEscape msg ++ "\"\x7d"

/-- `JSON.stringify(\x7b error: 'proxy error', message: err.message \x7d)`. -/
def proxyErrorBody (msg : String) : String :=
  "\x7b\"error\":\"proxy error\",\"message\":\"" ++ jsonEscape msg ++ "\"\x7d"

/-- How far `proxySSE` gets before any upstream I/O happens: either it
answers the caller directly (writeHead + end, no outbound connection is
ever attempted) or it reaches `client.request` with the constructed
options. -/
inductive ProxyOutcome where
  | respond (status : Nat) (headers : List (String × String)) (body : String)
  | connect (options : RequestOptions)
deriving DecidableEq, Repr

def startStatus : ProxyOutcome → Option Nat
  | ProxyOutcome.respond s _ _ => some s
  | ProxyOutcome.connect _ => none

/-- Source lines 20-45 of `proxySSE`, up to the point where the
outbound connection would be opened: extract the `url` query parameter
(`!target`, i.e. absent or empty, answers 400 with the missing-param
body); then `new URL(target)` — a parse failure throws and lands in the
catch block of lines 71-74, which answers 500 with the proxy-error body
since no headers have been committed yet; otherwise the outbound
`options` are built.  (Node's `TypeError` message for an unparseable
URL is `Invalid URL`.) -/
def proxySSEStart (req : InboundRequest) : ProxyOutcome :=
  match getQueryParam (queryOf req.path) "url" with
  | none => ProxyOutcome.respond 400 [("Content-Type", "application/json")] missingUrlBody
  | some target =>
    if target = "" then
      ProxyOutcome.respond 400 [("Content-Type", "application/json")] missingUrlBody
    else
      match parseURL target with
      | none => ProxyOutcome.respond 500 [("Content-Type", "application/json")] (proxyErrorBody "Invalid URL")
      | some t => ProxyOutcome.connect (buildOptions req t)

/-- Source lines 48-54: the response head written to the caller when
the upstream response head `(ur.statusCode, ur.headers)` arrives. -/
def responseHead (statusCode : Option Nat) (urHeaders : List (String × String)) :
    Nat × List (String × String) :=
  let ct := (getHeader urHeaders "content-type").getD ""
  let isSSE := strIncludes ct "text/event-stream"
  (statusCode.getD 200,
   [("Content-Type", if isSSE then "text/event-stream"
                     else (getHeader urHeaders "content-type").getD "application/json"),
    ("Cache-Control", "no-cache"),
    ("Connection", "keep-alive"),
    ("Access-Control-Allow-Origin", "*")])

/-- Events of the upstream response body stream `ur`. -/
inductive UpEvent where
  | data (chunk : List Nat)
  | ended
  | failed
deriving DecidableEq, Repr

/-- Write actions performed on the caller's response `res`. -/
inductive ResAction where
  | writeHead (status : Nat) (headers : List (String × String))
  | write (chunk : List Nat)
  | endRes
  | endWithBody (body : String)
deriving DecidableEq, Repr

/-- Source lines 55-57: the handlers registered on the upstream
response stream — `data` chunks are written through to the caller,
`end` and `error` both end the caller's response. -/
def urHandler : UpEvent → ResAction
  | UpEvent.data c => ResAction.write c
  | UpEvent.ended => ResAction.endRes
  | UpEvent.failed => ResAction.endRes

/-- Source lines 47-57 assembled: the full action sequence on the
caller's response for one upstream response — the computed head first,
then one action per upstream body event. -/
def relayResponse (statusCode : Option Nat) (urHeaders : List (String × String))
    (events : List UpEvent) : List ResAction :=
  ResAction.writeHead (responseHead statusCode urHeaders).1 (responseHead statusCode urHeaders).2
    :: events.map urHandler

/-- Source lines 60-63: the `upstream.on('error')` handler.  When
headers have not been committed it first writes a 502 head; in either
case it then ends the caller's response **with** the bad-gateway JSON
body as final data. -/
def upstreamErrorAction (headersSent : Bool) (msg : String) : List ResAction :=
  (if headersSent then []
   else [ResAction.writeHead 502 [("Content-Type", "application/json")]])
  ++ [ResAction.endWithBody (badGatewayBody msg)]

/-- Events of the inbound request body stream. -/
inductive ReqEvent where
  | data (chunk : List Nat)
  | ended
deriving DecidableEq, Repr

/-- Write actions performed on the outbound request `upstream`. -/
inductive UpAction where
  | write (chunk : List Nat)
  | endUp
deriving DecidableEq, Repr

/-- Source lines 66-67: for POST, `data` chunks are written through to
the outbound request and `end` finalizes it. -/
def reqEventAction : ReqEvent → UpAction
  | ReqEvent.data c => UpAction.write c
  | ReqEvent.ended => UpAction.endUp

/-- Source lines 65-70: POST registers the chunk-by-chunk forwarding
handlers on the inbound body; every other method finalizes the
outbound request immediately, ignoring the inbound body entirely. -/
def forwardBody (method : String) (events : List ReqEvent) : List UpAction :=
  if method = "POST" then events.map reqEventAction else [UpAction.endUp]

/-- State of one relay session: whether the outbound (upstream)
connection and the caller-facing response stream are still open. -/
structure SessionState where
  upstreamOpen : Bool
  callerOpen : Bool
deriving DecidableEq, Repr

/-- Terminal events that can hit an active relay session. -/
inductive SessEvent where
  | inboundClose
  | upstreamEnd
  | upstreamError
  | connError
deriving DecidableEq, Repr

/-- Event-step model of one active relay session, from the handlers
registered in `proxySSE` (source lines 47-70): the upstream `end` and
`error` handlers call `res.end()` and the connection-level `error`
handler ends the response too, so any upstream-side termination closes
the caller stream; no handler at all is registered for the inbound
socket closing (`req`/`res` have no `close` listener), so a caller
disconnect only closes the caller side and leaves the outbound
connection untouched. -/
def sessionStep (s : SessionState) : SessEvent → SessionState
  | SessEvent.inboundClose => { s with callerOpen := false }
  | SessEvent.upstreamEnd => { upstreamOpen := false, callerOpen := false }
  | SessEvent.upstreamError => { upstreamOpen := false, callerOpen := false }
  | SessEvent.connError => { upstreamOpen := false, callerOpen := false }

/-! Helper lemmas about the substring check. -/

lemma listIncludes_nil (s : List Char) : listIncludes [] s = true := by
  cases s with
  | nil => rfl
  | cons c rest => simp [listIncludes, leadsWith]

lemma leadsWith_append (pat a b : List Char) (h : leadsWith pat a = true) :
    leadsWith pat (a ++ b) = true := by
  induction pat generalizing a with
  | nil => rfl
  | cons c cs ih =>
    cases a with
    | nil => simp [leadsWith] at h
    | cons d ds =>
      simp only [leadsWith, Bool.and_eq_true] at h
      simp only [List.cons_append, leadsWith, Bool.and_eq_true]
      exact ⟨h.1, ih ds h.2⟩

lemma listIncludes_append_left (pat a b : List Char) (h : listIncludes pat a = true) :
    listIncludes pat (a ++ b) = true := by
  induction a with
  | nil =>
    have hp : pat = [] := by
      cases pat with
      | nil => rfl
      | cons c cs => simp [listIncludes, List.isEmpty] at h
    subst hp
    exact listIncludes_nil b
  | cons c a' ih =>
    simp only [listIncludes, Bool.or_eq_true] at h
    simp only [List.cons_append, listIncludes, Bool.or_eq_true]
    cases h with
    | inl h => exact Or.inl (leadsWith_append pat (c :: a') b h)
    | inr h => exact Or.inr (ih h)

lemma strIncludes_append_left (a b pat : String) (h : strIncludes a pat = true) :
    strIncludes (a ++ b) pat = true := by
  have hd : (a ++ b).data = a.data ++ b.data := rfl
  unfold strIncludes at h ⊢
  rw [hd]
  exact listIncludes_append_left pat.data a.data b.data h

/-! Claim theorems. -/

/-- C1: when the upstream response head arrives, the status sent to the
caller is the upstream status (default 200); if the upstream
Content-Type contains `text/event-stream` the caller's head is exactly
Content-Type `text/event-stream` with Cache-Control `no-cache`,
Connection `keep-alive` and the CORS origin header; otherwise the
upstream's own Content-Type is forwarded, defaulting to
`application/json` when the upstream supplies none. -/
theorem C1_response_head (st : Option Nat) (urHeaders : List (String × String)) :
    (responseHead st urHeaders).1 = st.getD 200 ∧
    (strIncludes ((getHeader urHeaders "content-type").getD "") "text/event-stream" = true →
      (responseHead st urHeaders).2 =
        [("Content-Type", "text/event-stream"),
         ("Cache-Control", "no-cache"),
         ("Connection", "keep-alive"),
         ("Access-Control-Allow-Origin", "*")]) ∧
    (strIncludes ((getHeader urHeaders "content-type").getD "") "text/event-stream" = false →
      (responseHead st urHeaders).2 =
        [("Content-Type", (getHeader urHeaders "content-type").getD "application/json"),
         ("Cache-Control", "no-cache"),
         ("Connection", "keep-alive"),
         ("Access-Control-Allow-Origin", "*")]) := by
  refine ⟨rfl, ?_, ?_⟩ <;> intro h <;> simp [responseHead, h]

/-- Witness for C1 at concrete upstream heads: an SSE upstream
(`text/event-stream; charset=utf-8`, status 201) and a JSON upstream
with no status. -/
theorem C1_response_head_witness :
    (responseHead (some 201) [("content-type", "text/event-stream; charset=utf-8")]).2 =
      [("Content-Type", "text/event-stream"),
       ("Cache-Control", "no-cache"),
       ("Connection", "keep-alive"),
       ("Access-Control-Allow-Origin", "*")] ∧
    (responseHead none [("content-type", "application/json")]).2 =
      [("Content-Type", "application/json"),
       ("Cache-Control", "no-cache"),
       ("Connection", "keep-alive"),
       ("Access-Control-Allow-Origin", "*")] :=
  ⟨(C1_response_head (some 201) [("content-type", "text/event-stream; charset=utf-8")]).2.1
      (by decide),
   (C1_response_head none [("content-type", "application/json")]).2.2 (by decide)⟩

/-- C2 counterexample: a present, non-empty but unparseable `url`
parameter is answered with status 500 (the generic catch block), not
with the claimed 400. -/
theorem C2_invalid_target_counterexample :
    proxySSEStart { method := "GET", path := "/sse?url=notaurl", headers := [] } =
      ProxyOutcome.respond 500 [("Content-Type", "application/json")]
        (proxyErrorBody "Invalid URL") ∧
    startStatus (proxySSEStart { method := "GET", path := "/sse?url=notaurl", headers := [] })
      ≠ some 400 := by
  exact ⟨by decide, by decide⟩

/-- C2 (amended): a present, non-empty `url` parameter that cannot be
parsed as an absolute URL is answered directly with status 500 and the
generic proxy-error JSON body — the thrown `TypeError` lands in the
catch-all handler, which classifies it as an internal error rather than
a 400 client error — and this happens before any outbound connection
attempt (the outcome is a direct response, never `connect`). -/
theorem C2_invalid_target_rejected (req : InboundRequest) (t : String)
    (hget : getQueryParam (queryOf req.path) "url" = some t)
    (hne : t ≠ "") (hparse : parseURL t = none) :
    proxySSEStart req =
      ProxyOutcome.respond 500 [("Content-Type", "application/json")]
        (proxyErrorBody "Invalid URL") := by
  simp [proxySSEStart, hget, hne, hparse]

/-- Witness for C2 (amended) at the concrete request
`GET /sse?url=notaurl`. -/
theorem C2_invalid_target_rejected_witness :
    proxySSEStart { method := "GET", path := "/sse?url=notaurl", headers := [] } =
      ProxyOutcome.respond 500 [("Content-Type", "application/json")]
        (proxyErrorBody "Invalid URL") :=
  C2_invalid_target_rejected { method := "GET", path := "/sse?url=notaurl", headers := [] }
    "notaurl" (by decide) (by decide) (by decide)

/-- C3 counterexample: with headers already sent, the upstream error
handler still ends the caller's response **with** the bad-gateway JSON
body — i.e. a further write of a non-empty error body is attempted on
the committed response, contradicting the claimed silent
termination. -/
theorem C3_post_commit_counterexample :
    upstreamErrorAction true "socket hang up" =
      [ResAction.endWithBody (badGatewayBody "socket hang up")] ∧
    badGatewayBody "socket hang up" ≠ "" := by
  exact ⟨rfl, by decide⟩

/-- C3 (amended): when the outbound connection fails after headers have
been sent, the handler performs no `writeHead` (the already-sent status
is not altered) and terminates the caller's response, but it does so by
ending it with the bad-gateway JSON body as final data rather than
silently. -/
theorem C3_post_commit_behavior (msg : String) :
    upstreamErrorAction true msg = [ResAction.endWithBody (badGatewayBody msg)] := by
  rfl

/-- C4: the outbound header set is exactly the fixed five-entry
allow-list — Accept (inbound value, default `text/event-stream`),
Content-Type (inbound value, default `application/json`),
Cache-Control `no-cache`, Connection `keep-alive`, and the fixed
identifying User-Agent — never a copy of arbitrary inbound headers. -/
theorem C4_outbound_header_allowlist (req : InboundRequest) (t : URLRec) :
    (buildOptions req t).headers =
      [("Accept", (getHeader req.headers "accept").getD "text/event-stream"),
       ("Content-Type", (getHeader req.headers "content-type").getD "application/json"),
       ("Cache-Control", "no-cache"),
       ("Connection", "keep-alive"),
       ("User-Agent", "mcp-inspector-local-proxy")] ∧
    ((buildOptions req t).headers.map Prod.fst) =
      ["Accept", "Content-Type", "Cache-Control", "Connection", "User-Agent"] :=
  ⟨rfl, rfl⟩

/-- C5: the inbound body is forwarded iff the method is POST — for POST
every inbound chunk becomes an outbound write, in order, and the
outbound request is finalized exactly when the inbound body completes;
for any other method the outbound request is finalized immediately with
no body, whatever the inbound body events are. -/
theorem C5_body_forwarding (method : String) (events : List ReqEvent)
    (chunks : List (List Nat)) :
    (method = "POST" → events = chunks.map ReqEvent.data ++ [ReqEvent.ended] →
      forwardBody method events = chunks.map UpAction.write ++ [UpAction.endUp]) ∧
    (method ≠ "POST" → forwardBody method events = [UpAction.endUp]) := by
  constructor
  · intro hm he
    subst hm
    subst he
    simp [forwardBody, List.map_append, List.map_map, Function.comp, reqEventAction]
  · intro hm
    simp [forwardBody, hm]

/-- Witness for C5: a two-chunk POST body is forwarded chunk by chunk
then finalized; a GET with the same body events is finalized
immediately with no body. -/
theorem C5_body_forwarding_witness :
    forwardBody "POST" [ReqEvent.data [1, 2], ReqEvent.data [3], ReqEvent.ended] =
      [UpAction.write [1, 2], UpAction.write [3], UpAction.endUp] ∧
    forwardBody "GET" [ReqEvent.data [1, 2], ReqEvent.data [3], ReqEvent.ended] =
      [UpAction.endUp] :=
  ⟨(C5_body_forwarding "POST" [ReqEvent.data [1, 2], ReqEvent.data [3], ReqEvent.ended]
      [[1, 2], [3]]).1 rfl rfl,
   (C5_body_forwarding "GET" [ReqEvent.data [1, 2], ReqEvent.data [3], ReqEvent.ended]
      [[1, 2], [3]]).2 (by decide)⟩

/-- C6: a request whose `url` query parameter is absent or empty is
answered directly with status 400 and the missing-url-param JSON body;
the outcome is a direct response, so no outbound connection is ever
attempted. -/
theorem C6_missing_url_400 (req : InboundRequest)
    (h : getQueryParam (queryOf req.path) "url" = none ∨
         getQueryParam (queryOf req.path) "url" = some "") :
    proxySSEStart req =
      ProxyOutcome.respond 400 [("Content-Type", "application/json")] missingUrlBody := by
  rcases h with h | h <;> simp [proxySSEStart, h]

/-- Witness for C6 at the concrete requests `GET /sse` (parameter
absent) and `GET /sse?url=` (parameter empty). -/
theorem C6_missing_url_400_witness :
    proxySSEStart { method := "GET", path := "/sse", headers := [] } =
      ProxyOutcome.respond 400 [("Content-Type", "application/json")] missingUrlBody ∧
    proxySSEStart { method := "GET", path := "/sse?url=", headers := [] } =
      ProxyOutcome.respond 400 [("Content-Type", "application/json")] missingUrlBody :=
  ⟨C6_missing_url_400 { method := "GET", path := "/sse", headers := [] }
      (Or.inl (by decide)),
   C6_missing_url_400 { method := "GET", path := "/sse?url=", headers := [] }
      (Or.inr (by decide))⟩

/-- C7: an outbound connection failure before headers are sent is
answered with a 502 head and a JSON body that carries the error tag
`bad gateway` and the failure detail. -/
theorem C7_pre_commit_502 (msg : String) :
    upstreamErrorAction false msg =
      [ResAction.writeHead 502 [("Content-Type", "application/json")],
       ResAction.endWithBody (badGatewayBody msg)] ∧
    strIncludes (badGatewayBody msg) "bad gateway" = true := by
  refine ⟨rfl, ?_⟩
  have h1 : strIncludes "\x7b\"error\":\"bad gateway\",\"message\":\"" "bad gateway" = true := by
    decide
  have h2 := strIncludes_append_left "\x7b\"error\":\"bad gateway\",\"message\":\""
    (jsonEscape msg ++ "\"\x7d") "bad gateway" h1
  simpa [badGatewayBody, String.append_assoc] using h2

/-- C8 counterexample: an upstream response header outside the fixed
set (here `x-custom`) is present upstream but absent from the head sent
to the caller — upstream headers are not mirrored wholesale. -/
theorem C8_headers_not_mirrored_counterexample :
    getHeader [("content-type", "application/json"), ("x-custom", "1")] "x-custom" = some "1" ∧
    getHeader (responseHead (some 200)
      [("content-type", "application/json"), ("x-custom", "1")]).2 "x-custom" = none := by
  exact ⟨by decide, by decide⟩

/-- C8 (amended): for a successful exchange the upstream status
(default 200) and the upstream body chunks are mirrored to the caller
in order, ending cleanly when the upstream body ends; the caller's
headers, however, are not a copy of the upstream's — they are the fixed
normalized four-header set (Content-Type as computed by the SSE rule,
Cache-Control, Connection, CORS origin). -/
theorem C8_relay_mirrors_status_body (st : Option Nat) (urHeaders : List (String × String))
    (chunks : List (List Nat)) :
    relayResponse st urHeaders (chunks.map UpEvent.data ++ [UpEvent.ended]) =
      ResAction.writeHead (responseHead st urHeaders).1 (responseHead st urHeaders).2
        :: (chunks.map ResAction.write ++ [ResAction.endRes]) ∧
    (responseHead st urHeaders).1 = st.getD 200 ∧
    ((responseHead st urHeaders).2.map Prod.fst) =
      ["Content-Type", "Cache-Control", "Connection", "Access-Control-Allow-Origin"] := by
  refine ⟨?_, rfl, rfl⟩
  simp [relayResponse, List.map_append, List.map_map, Function.comp, urHandler]

/-- C9 counterexample: from a fully open session, the inbound-close
event leaves the outbound connection open (no handler closes it), so a
caller disconnect does not close the upstream side as claimed. -/
theorem C9_disconnect_counterexample :
    (sessionStep { upstreamOpen := true, callerOpen := true } SessEvent.inboundClose).upstreamOpen
      = true ∧
    (sessionStep { upstreamOpen := true, callerOpen := true } SessEvent.inboundClose).callerOpen
      = false := by
  exact ⟨rfl, rfl⟩

/-- C9 (amended): an unexpected upstream closure (end, stream error or
connection error) terminates the caller-facing stream; a caller
disconnect, however, does not close the outbound connection — no
handler for the inbound close is registered, so the upstream side is
left exactly as it was. -/
theorem C9_session_termination (s : SessionState) :
    (sessionStep s SessEvent.upstreamEnd).callerOpen = false ∧
    (sessionStep s SessEvent.upstreamError).callerOpen = false ∧
    (sessionStep s SessEvent.connError).callerOpen = false ∧
    (sessionStep s SessEvent.inboundClose).upstreamOpen = s.upstreamOpen := by
  exact ⟨rfl, rfl, rfl, rfl⟩

/-- C10: two /sse requests that agree on method, path and the inbound
`accept` and `content-type` values produce identical outcomes — in
particular identical outbound requests — whatever their other headers
(Authorization, Cookie, Origin, ...) are; moreover `Authorization` is
listed in the CORS allowed-headers policy yet never occurs among the
outbound header names. -/
theorem C10_header_noninterference :
    (∀ r1 r2 : InboundRequest, r1.method = r2.method → r1.path = r2.path →
      getHeader r1.headers "accept" = getHeader r2.headers "accept" →
      getHeader r1.headers "content-type" = getHeader r2.headers "content-type" →
      proxySSEStart r1 = proxySSEStart r2) ∧
    strIncludes ((getHeader corsHeaders "Access-Control-Allow-Headers").getD "")
      "Authorization" = true ∧
    (∀ (req : InboundRequest) (t : URLRec),
      ((buildOptions req t).headers.map Prod.fst).contains "Authorization" = false) := by
  refine ⟨?_, by decide, fun req t => rfl⟩
  intro r1 r2 hm hp ha hc
  have hb : ∀ u, buildOptions r1 u = buildOptions r2 u := by
    intro u
    simp [buildOptions, hm, ha, hc]
  simp only [proxySSEStart, hp]
  cases getQueryParam (queryOf r2.path) "url" with
  | none => rfl
  | some target =>
    by_cases ht : target = ""
    · simp [ht]
    · simp only [if_neg ht]
      cases parseURL target with
      | none => rfl
      | some u => exact congrArg ProxyOutcome.connect (hb u)

/-- Witness for C10: two concrete requests for the same target, one
carrying an Authorization header and a Cookie, the other carrying
neither, produce the same outcome. -/
theorem C10_header_noninterference_witness :
    proxySSEStart { method := "GET", path := "/sse?url=http://a.example/x",
                    headers := [("accept", "text/event-stream"),
                                ("authorization", "Bearer secret-token")] } =
    proxySSEStart { method := "GET", path := "/sse?url=http://a.example/x",
                    headers := [("accept", "text/event-stream"),
                                ("cookie", "session=abc")] } :=
  C10_header_noninterference.1
    { method := "GET", path := "/sse?url=http://a.example/x",
      headers := [("accept", "text/event-stream"), ("authorization", "Bearer secret-token")] }
    { method := "GET", path := "/sse?url=http://a.example/x",
      headers := [("accept", "text/event-stream"), ("cookie", "session=abc")] }
    rfl rfl (by decide) (by decide)

end McpProxy
